import Mathlib

/-!
Shallow embedding of the salesAllSales data-acquisition pipeline
(steamService.js, updateService.js, searchService.js, the Game and
BlacklistGame mongoose models).  JavaScript objects are modelled as Lean
structures whose possibly-absent fields are `Option`s (`none` = the field
is `undefined`); JS numbers that the code divides by 100 are modelled as
`ℚ`; timestamps are `Nat` milliseconds.  Where the repository keeps
several historical variants of one function, the variants are embedded
side by side with `V1`/`V2`/`V3` suffixes in source order.
-/

namespace SalesAllSales

/-- Substring occurrence over character lists (computable search used to
model JS `String.prototype.includes`). -/
def subOccurs (sub : List Char) : List Char → Bool
  | [] => sub.isEmpty
  | c :: rest => sub.isPrefixOf (c :: rest) || subOccurs sub rest

/-- JS `s.includes(sub)`: `sub` occurs as a substring of `s`. -/
def jsIncludes (s sub : String) : Bool :=
  subOccurs sub.toList s.toList

/-- JS `s.toLowerCase()` (ASCII case folding, which is all the code's
literal patterns need). -/
def jsToLower (s : String) : String :=
  (s.toList.map Char.toLower).asString

/-- JS `s.trim()`: strip whitespace from both ends. -/
def jsTrim (s : String) : String :=
  ((s.toList.dropWhile Char.isWhitespace).reverse.dropWhile
    Char.isWhitespace).reverse.asString

/-- JS truthiness of a possibly-absent string: `undefined`, `null` and the
empty string are falsy, every other string is truthy. -/
def jsTruthyStr : Option String → Bool
  | none => false
  | some s => s ≠ ""

/-- JS `a || b` on possibly-absent strings (used for `data.name || name`,
`x.url || null`, ...): returns `a` unless it is falsy. -/
def jsOrStr (a b : Option String) : Option String :=
  if jsTruthyStr a then a else b

/-- JS `parseInt(s)` in base 10: skip leading whitespace, read an optional
sign and then the maximal digit prefix; `none` models `NaN` (no digits). -/
def jsParseInt (s : String) : Option Int :=
  let cs := s.toList.dropWhile Char.isWhitespace
  let (neg, rest) :=
    match cs with
    | '-' :: r => (true, r)
    | '+' :: r => (false, r)
    | r => (false, r)
  let ds := rest.takeWhile Char.isDigit
  if ds.isEmpty then none
  else
    let n : Nat := ds.foldl (fun acc c => acc * 10 + (c.toNat - '0'.toNat)) 0
    some (if neg then -(n : Int) else (n : Int))

/-- JS `parseInt(s) || d`: the parsed value unless it is `NaN` or `0`
(both falsy), in which case the default `d` is used. -/
def jsParseIntOr (s : Option String) (d : Int) : Int :=
  match s with
  | none => d
  | some s =>
    match jsParseInt s with
    | none => d
    | some v => if v = 0 then d else v

/-! ### config/steamConstants.js -/

/-- Constant `STEAM_TYPES.UNKNOWN`. -/
def STEAM_TYPES_UNKNOWN : String := "unknown"

/-- Constant `STEAM_FILTERS.VALID_TYPES`. -/
def VALID_TYPES : List String := ["game", "games", "dlc", "package"]

/-! ### Upstream catalog listing and `getGamesList` (steamService.js) -/

/-- One entry of the upstream `applist.apps` array. -/
structure App where
  appid : Nat
  name : Option String := none
deriving DecidableEq, Repr

/-- Filter predicate of the plain `getGamesList` (first steamService
variant): `game.name && game.name.trim() !== '' &&
!game.name.toLowerCase().includes('test')`. -/
def keepV1 (g : App) : Bool :=
  match g.name with
  | none => false
  | some n => n ≠ "" && jsTrim n ≠ "" && !(jsIncludes (jsToLower n) "test")

/-- Plain `getGamesList` applied to the upstream `applist.apps` payload. -/
def getGamesListV1 (apps : List App) : List App :=
  apps.filter keepV1

/-- Filter predicate of the cached `getGamesList` (second steamService
variant), which additionally drops names containing `'demo'`. -/
def keepV2 (g : App) : Bool :=
  match g.name with
  | none => false
  | some n =>
    n ≠ "" && jsTrim n ≠ "" && !(jsIncludes (jsToLower n) "test")
      && !(jsIncludes (jsToLower n) "demo")

/-- Cached `getGamesList` (second steamService variant).  The NodeCache
layer is not modelled: with an unchanged upstream payload the cached and
fresh results coincide. -/
def getGamesListV2 (apps : List App) : List App :=
  apps.filter keepV2

/-- The spec's wording of catalog eligibility, for comparison with the
code: name present, not empty or whitespace-only, and not containing the
substring `"test"` case-insensitively. -/
def specCatalogEligible (g : App) : Bool :=
  match g.name with
  | none => false
  | some n => jsTrim n ≠ "" && !(jsIncludes (jsToLower n) "test")

/-! ### Detail payloads and the record normalizer (second steamService
variant: `_processGameData`, `_processPriceData`, `_processMetacriticData`,
`_processRecommendationsData`) -/

/-- The raw `price_overview` block of an upstream detail payload.  Amounts
are minor-currency integers. -/
structure PriceOverview where
  currency : Option String := none
  initial : Option Int := none
  final : Option Int := none
  discount_percent : Option Int := none
  initial_formatted : Option String := none
  final_formatted : Option String := none
deriving DecidableEq, Repr

/-- A normalized price object as built by `_processPriceData`.  The
normalizer writes the discount under the key `discountPercent`; the
snake-case key `discount_percent` (read elsewhere by
`UpdateService.hasPriceChanged` and declared by the Game schema) is a
distinct JS property, carried here so that field reads on either key can
be embedded faithfully.  `_processPriceData` never sets `discount_percent`. -/
structure Price where
  currency : Option String := none
  initial : Option ℚ := none
  final : Option ℚ := none
  discountPercent : Option ℚ := none
  discount_percent : Option ℚ := none
  initialFormatted : Option String := none
  finalFormatted : Option String := none
  lastChecked : Option Nat := none
deriving DecidableEq, Repr

/-- JS `x ? x / 100 : null` on a minor-currency field: `undefined` and `0`
are falsy and yield `null`; otherwise the amount is divided by 100. -/
def jsDiv100 : Option Int → Option ℚ
  | none => none
  | some i => if i ≠ 0 then some ((i : ℚ) / 100) else none

/-- Function `_processPriceData(priceOverview)`: `null` when no price block is
present, otherwise the normalized price (with `lastChecked = new Date()`,
passed in as `now`). -/
def processPriceData (po : Option PriceOverview) (now : Nat) : Option Price :=
  match po with
  | none => none
  | some po =>
    some
      { currency := po.currency
        initial := jsDiv100 po.initial
        final := jsDiv100 po.final
        discountPercent := some ((po.discount_percent.getD 0 : Int) : ℚ)
        discount_percent := none
        initialFormatted := some (po.initial_formatted.getD "")
        finalFormatted := some (po.final_formatted.getD "")
        lastChecked := some now }

/-- Raw `metacritic` block. -/
structure RawMetacritic where
  score : Option Int := none
  url : Option String := none
deriving DecidableEq, Repr

/-- Normalized `metacritic` object: never absent, fields nullable. -/
structure Metacritic where
  score : Option Int := none
  url : Option String := none
deriving DecidableEq, Repr

/-- Function `_processMetacriticData`: a missing block yields `{score: null,
url: null}`; `score || null` turns a `0` score into `null` and
`url || null` turns an empty url into `null`. -/
def processMetacriticData (m : Option RawMetacritic) : Metacritic :=
  match m with
  | none => { score := none, url := none }
  | some m =>
    { score := match m.score with
        | none => none
        | some s => if s ≠ 0 then some s else none
      url := jsOrStr m.url none }

/-- Raw `recommendations` block. -/
structure RawRecommendations where
  total : Option Int := none
deriving DecidableEq, Repr

/-- Normalized `recommendations` object: `total` defaults to 0. -/
structure Recommendations where
  total : Int := 0
deriving DecidableEq, Repr

/-- Function `_processRecommendationsData`. -/
def processRecommendationsData (r : Option RawRecommendations) : Recommendations :=
  match r with
  | none => { total := 0 }
  | some r => { total := r.total.getD 0 }

/-- JS `required_age` values arrive as numbers or numeric strings. -/
inductive RawAge where
  | num (n : Int)
  | str (s : String)
deriving DecidableEq, Repr

/-- One entry of the raw `genres` array. -/
structure RawGenre where
  description : String
deriving DecidableEq, Repr

/-- The `platforms` block. -/
structure Platforms where
  windows : Option Bool := none
  mac : Option Bool := none
  linux : Option Bool := none
deriving DecidableEq, Repr

/-- The `data` object of a successful upstream detail response. -/
structure RawGameData where
  type : Option String := none
  is_free : Option Bool := none
  name : Option String := none
  required_age : Option RawAge := none
  developers : Option (List String) := none
  publishers : Option (List String) := none
  packages : Option (List Nat) := none
  platforms : Option Platforms := none
  genres : Option (List RawGenre) := none
  dlc : Option (List Nat) := none
  header_image : Option String := none
  website : Option String := none
  metacritic : Option RawMetacritic := none
  recommendations : Option RawRecommendations := none
  price_overview : Option PriceOverview := none
deriving DecidableEq, Repr

/-- The normalized record built by `_processGameData` (second variant). -/
structure GameDetails where
  appid : Nat
  type : String
  isMainType : Bool
  is_free : Bool
  name : Option String
  required_age : Int
  developers : List String
  publishers : List String
  packages : List Nat
  platforms : Platforms
  genres : List String
  dlc : List Nat
  header_image : String
  website : String
  metacritic : Metacritic
  recommendations : Recommendations
  price : Option Price
  lastUpdated : Nat
deriving DecidableEq, Repr

/-- The `required_age` handling of `_processGameData`: numbers are taken
as-is, numeric strings are parsed with `parseInt`, non-numeric strings are
logged and default to 0, a missing field defaults to 0. -/
def requiredAgeOf (a : Option RawAge) : Int :=
  match a with
  | none => 0
  | some (.num n) => n
  | some (.str s) =>
    match jsParseInt s with
    | some v => v
    | none => 0

/-- Function `_processGameData(appid, name, data)` (second steamService variant). -/
def processGameData (appid : Nat) (name : Option String) (data : RawGameData)
    (now : Nat) : GameDetails :=
  let isFree := data.is_free.getD false
  { appid := appid
    type := (jsOrStr data.type (some STEAM_TYPES_UNKNOWN)).getD STEAM_TYPES_UNKNOWN
    isMainType := match data.type with
      | some t => VALID_TYPES.contains t
      | none => false
    is_free := isFree
    name := jsOrStr data.name name
    required_age := requiredAgeOf data.required_age
    developers := data.developers.getD []
    publishers := data.publishers.getD []
    packages := data.packages.getD []
    platforms := data.platforms.getD {}
    genres := (data.genres.getD []).map (·.description)
    dlc := data.dlc.getD []
    header_image := data.header_image.getD ""
    website := data.website.getD ""
    metacritic := processMetacriticData data.metacritic
    recommendations := processRecommendationsData data.recommendations
    price := if isFree then none else processPriceData data.price_overview now
    lastUpdated := now }

/-! ### `getGameDetails` (second steamService variant) -/

/-- What the upstream detail endpoint (or the transport) produced for one
id.  `missing` = the response has no `data[appid]` key, `invalidData` =
`success` is true but `data` is not an object; both make `getGameDetails`
throw internally and return `null`.  `notSuccess` = `success: false`. -/
inductive UpstreamDetail where
  | transportError
  | missing
  | notSuccess
  | invalidData
  | payload (d : RawGameData)
deriving DecidableEq, Repr

/-- The value `getGameDetails` resolves with: `null`, the
`{blacklist: true, reason: 'success_false'}` sentinel, or processed data. -/
inductive DetailResult where
  | fail
  | blacklistSig
  | ok (d : GameDetails)
deriving DecidableEq, Repr

/-- Function `getGameDetails(appid, name)` (second steamService variant) as a
function of the upstream response for that id.  The per-id cache, the
request queue and the cooldown wait only affect timing, not the resolved
value for a fixed upstream response, and are not modelled. -/
def getGameDetailsResult (resp : UpstreamDetail) (appid : Nat)
    (name : Option String) (now : Nat) : DetailResult :=
  match resp with
  | .transportError => .fail
  | .missing => .fail
  | .notSuccess => .blacklistSig
  | .invalidData => .fail
  | .payload d => .ok (processGameData appid name d now)

/-! ### BlacklistGame model and `UpdateService.addToBlacklist` -/

/-- A BlacklistGame document.  Schema defaults: `attemptCount: 1`,
`lastAttempt: Date.now`, `createdAt: Date.now`.  (The schema also marks
`name` required; validation is not modelled — both call sites pass the
catalog or stored name.) -/
structure BlacklistEntry where
  appid : Nat
  name : Option String := none
  attemptCount : Nat := 1
  lastAttempt : Nat := 0
  createdAt : Nat := 0
deriving DecidableEq, Repr

/-- Method `UpdateService.addToBlacklist(appid, name)`: if an entry for `appid`
exists, `$inc` its `attemptCount` and `$set` its `lastAttempt`; otherwise
save a new document, whose `attemptCount` defaults to 1. -/
def addToBlacklist (bl : List BlacklistEntry) (appid : Nat)
    (name : Option String) (now : Nat) : List BlacklistEntry :=
  match bl.find? (fun e => e.appid = appid) with
  | some _ =>
    bl.map (fun e =>
      if e.appid = appid then
        { e with attemptCount := e.attemptCount + 1, lastAttempt := now }
      else e)
  | none =>
    bl ++ [{ appid := appid, name := name, attemptCount := 1,
             lastAttempt := now, createdAt := now }]

/-! ### Game model documents and `UpdateService.updateGameDetails` -/

/-- A stored Game document (the fields the claims touch; absent fields are
`none`). -/
structure GameDoc where
  appid : Nat
  type : Option String := none
  isMainType : Option Bool := none
  is_free : Option Bool := none
  name : Option String := none
  price : Option Price := none
  price_overview : Option Price := none
  priceHistory : List (Option Price) := []
  genres : List String := []
  developers : List String := []
  publishers : List String := []
  header_image : Option String := none
  lastUpdated : Option Nat := none
deriving DecidableEq, Repr

/-- The mongoose cast applied whenever a price object is written through
the Game model's `priceSchema` (strict mode): keys the schema does not
declare — the normalizer's `discountPercent`, `initialFormatted`,
`finalFormatted` — are stripped, and the declared `discount_percent`
path receives its default 0 when the object carries none; `lastChecked`
likewise defaults to now.  (The schema's snake-case
`initial_formatted`/`final_formatted` paths receive nothing, since the
normalizer emits only the camel-case keys; nothing modelled reads
them.)  So a price subdocument this pipeline stores always carries
`discount_percent` and never `discountPercent`. -/
def castPrice (p : Price) (now : Nat) : Price :=
  { currency := p.currency
    initial := p.initial
    final := p.final
    discountPercent := none
    discount_percent := some (p.discount_percent.getD 0)
    initialFormatted := none
    finalFormatted := none
    lastChecked := some (p.lastChecked.getD now) }

/-- The document written by `new Game(gameDetails).save()` during sync:
the price subdocument goes through the `priceSchema` cast. -/
def docOfDetails (d : GameDetails) : GameDoc :=
  { appid := d.appid
    type := some d.type
    isMainType := some d.isMainType
    is_free := some d.is_free
    name := d.name
    price := d.price.map (fun p => castPrice p d.lastUpdated)
    priceHistory := []
    genres := d.genres
    developers := d.developers
    publishers := d.publishers
    header_image := some d.header_image
    lastUpdated := some d.lastUpdated }

/-- Method `UpdateService.hasPriceChanged(oldGame, newGame)`: false when both
prices are absent, true when exactly one is absent, otherwise a
field-by-field comparison of `final`, `initial` and `discount_percent`
(note: the snake-case key — the normalizer stores the discount under
`discountPercent`, so on fresh data that read yields `undefined`). -/
def hasPriceChanged (oldGame : GameDoc) (newGame : GameDetails) : Bool :=
  match oldGame.price, newGame.price with
  | none, none => false
  | none, some _ => true
  | some _, none => true
  | some o, some n =>
    o.final ≠ n.final || o.initial ≠ n.initial
      || o.discount_percent ≠ n.discount_percent

/-- The `$set` part of `updateGameDetails`'s `updateOne`: every field of
the spread `updatedGameData` overwrites the stored document (mongoose
drops `undefined` update paths, so an absent fresh `name` leaves the
stored name), the `price` subdocument is cast through `priceSchema`, and
`lastUpdated` is set to now. -/
def applyDetails (g : GameDoc) (d : GameDetails) (now : Nat) : GameDoc :=
  { g with
    type := some d.type
    isMainType := some d.isMainType
    is_free := some d.is_free
    name := match d.name with
      | some n => some n
      | none => g.name
    price := d.price.map (fun p => castPrice p now)
    genres := d.genres
    developers := d.developers
    publishers := d.publishers
    header_image := some d.header_image
    lastUpdated := some now }

/-- Method `UpdateService.updateGameDetails(game)` as a function of the stored
document, the upstream detail response and the blacklist collection.
Returns the stored document after the update, the blacklist after the
update, and the resolved value (`game` on success, `null` otherwise).
When a price change is detected the old `game.price` is `$push`ed onto
`priceHistory` in the same update (the pushed value passes through the
array's `priceSchema` cast). -/
def updateGameDetails (g : GameDoc) (resp : UpstreamDetail)
    (bl : List BlacklistEntry) (now : Nat) :
    GameDoc × List BlacklistEntry × Option GameDoc :=
  match getGameDetailsResult resp g.appid g.name now with
  | .blacklistSig => (g, addToBlacklist bl g.appid g.name now, none)
  | .fail => (g, bl, none)
  | .ok d =>
    let hist :=
      if hasPriceChanged g d then
        g.priceHistory ++ [g.price.map (fun p => castPrice p now)]
      else g.priceHistory
    ({ applyDetails g d now with priceHistory := hist }, bl, some g)

/-! ### `UpdateService.syncNewGames` -/

/-- The two persisted collections. -/
structure Store where
  games : List GameDoc := []
  blacklist : List BlacklistEntry := []
deriving DecidableEq, Repr

/-- The set `existingIds`: the union of the distinct `appid`s of both collections
(membership is all the sync uses the set for). -/
def existingIds (st : Store) : List Nat :=
  st.games.map (·.appid) ++ st.blacklist.map (·.appid)

/-- The list `newGames`: the fetched catalog filtered to ids not in `existingIds`.
These are exactly the items `syncNewGames` issues detail fetches for. -/
def newItemsOf (cat : List App) (st : Store) : List App :=
  (getGamesListV2 cat).filter (fun g => !((existingIds st).contains g.appid))

/-- One `processGameDetails(game)` call inside `syncNewGames`: fetch the
detail, blacklist on the sentinel, skip on `null`, otherwise save a new
Game document.  Returns the new store and the per-item result (`null` on
skip/blacklist). -/
def syncStep (detail : Nat → UpstreamDetail) (now : Nat) (st : Store)
    (g : App) : Store × Option GameDoc :=
  match getGameDetailsResult (detail g.appid) g.appid g.name now with
  | .blacklistSig =>
    ({ st with blacklist := addToBlacklist st.blacklist g.appid g.name now },
     none)
  | .fail => (st, none)
  | .ok d =>
    let doc := docOfDetails d
    ({ st with games := st.games ++ [doc] }, some doc)

/-- The batch run over `newGames` (the bounded-concurrency helper applies
`processGameDetails` to every item exactly once and stores each item's
result at its index; per-item effects on distinct ids commute, so the run
is modelled as the in-order fold). -/
def syncFold (detail : Nat → UpstreamDetail) (now : Nat) :
    Store → List App → Store × List (Option GameDoc)
  | st, [] => (st, [])
  | st, g :: gs =>
    ((syncFold detail now (syncStep detail now st g).1 gs).1,
     (syncStep detail now st g).2
       :: (syncFold detail now (syncStep detail now st g).1 gs).2)

/-- Method `UpdateService.syncNewGames()` as a function of the upstream catalog
payload, the upstream detail responses and the store.  Returns the final
store and `validSavedGames` (the non-null batch results). -/
def syncNewGames (cat : List App) (detail : Nat → UpstreamDetail)
    (now : Nat) (st : Store) : Store × List GameDoc :=
  ((syncFold detail now st (newItemsOf cat st)).1,
   (syncFold detail now st (newItemsOf cat st)).2.filterMap id)

/-! ### `UpdateService.processBatchWithConcurrency` -/

/-- Method `processBatchWithConcurrency(items, asyncFn)`: every index is
dispatched exactly once (up to `concurrencyLimit` in flight);
`results[i]` receives the resolved value of `asyncFn(items[i])`, or
`null` when that promise rejects (the `.catch` swallows the rejection, so
the helper itself always resolves with the results array).  A per-item
operation is modelled as `Except`, rejection being `.error`; since each
cell depends only on its own item the concurrent schedule is modelled by
the index-order map. -/
def processBatchWithConcurrency {α β ε : Type} (items : List α)
    (asyncFn : α → Except ε β) : List (Option β) :=
  items.map (fun a =>
    match asyncFn a with
    | .ok r => some r
    | .error _ => none)

/-! ### The axios response interceptor (second steamService variant) -/

/-- The `retry`/`retryCount` bookkeeping that `withRetry` attaches to a
request config (`withRetry` sets `retry: true, retryCount: 0`). -/
structure RetryConfig where
  retry : Bool := false
  retryCount : Nat := 0
deriving DecidableEq, Repr

/-- A failed response: an HTTP status, or a network error with no
response object. -/
inductive UpstreamFailure where
  | httpStatus (code : Nat)
  | networkError
deriving DecidableEq, Repr

/-- What the error interceptor does with a failed request: reject with
the original error, reject with a fresh `Error` about exceeded retries,
or re-issue the request after a computed delay with an updated config. -/
inductive InterceptAction where
  | rejectOriginal
  | rejectMaxRetries
  | retryAfter (delayMs : Nat) (cfg : RetryConfig)
deriving DecidableEq, Repr

/-- The error branch of the response interceptor.  HTTP 429: retryable
configs under the retry bound are re-issued after
`retryDelay * 8 ** (retryCount - 1)` (the rate-limit bookkeeping on
`this` is modelled separately by `RateState`).  HTTP 404/403: always
rejected.  Anything else (5xx, other statuses, network errors):
retryable configs under the bound are re-issued after
`retryDelay * 2 ** (retryCount - 1)`.  In both retry branches the config's
`retryCount` has just been incremented, so with the pre-call count `k`
the delay exponent is `k`. -/
def responseErrorInterceptor (maxRetries retryDelay : Nat)
    (cfg : RetryConfig) (e : UpstreamFailure) : InterceptAction :=
  if e = .httpStatus 429 then
    if !cfg.retry then .rejectOriginal
    else if cfg.retryCount ≥ maxRetries then .rejectMaxRetries
    else .retryAfter (retryDelay * 8 ^ cfg.retryCount)
      { cfg with retryCount := cfg.retryCount + 1 }
  else if e = .httpStatus 404 ∨ e = .httpStatus 403 then .rejectOriginal
  else
    if !cfg.retry then .rejectOriginal
    else if cfg.retryCount ≥ maxRetries then .rejectMaxRetries
    else .retryAfter (retryDelay * 2 ^ cfg.retryCount)
      { cfg with retryCount := cfg.retryCount + 1 }

/-! ### Adaptive request spacing (`adjustRateLimit` and the
interceptor's rate-limit bookkeeping) -/

/-- The mutable rate-limit fields of the service:
`consecutiveRateLimitErrors`, `storeApiRateLimit`,
`lastRateLimitErrorTime` and the immutable `baseRateLimit`
(`STEAM_STORE_API_RATE_LIMIT`, default 1500). `maxRateLimit` is 30000. -/
structure RateState where
  consecutiveRateLimitErrors : Nat := 0
  storeApiRateLimit : Nat
  lastRateLimitErrorTime : Nat := 0
  baseRateLimit : Nat
deriving DecidableEq, Repr

/-- The constructor's initial rate state for a given base. -/
def initRateState (base : Nat) : RateState :=
  { consecutiveRateLimitErrors := 0, storeApiRateLimit := base,
    lastRateLimitErrorTime := 0, baseRateLimit := base }

/-- Method `adjustRateLimit()`: multiplier `min(20, 2 ** consecutive)` applied to
the base, then capped at `maxRateLimit = 30000`. -/
def adjustRateLimit (st : RateState) : RateState :=
  let multiplier := min 20 (2 ^ st.consecutiveRateLimitErrors)
  let r := st.baseRateLimit * multiplier
  { st with storeApiRateLimit := if r > 30000 then 30000 else r }

/-- The rate-limit bookkeeping the error interceptor performs on a 429:
record the error time, bump the consecutive-error counter, re-adjust the
spacing.  (The ≥5-errors cooldown sleep only delays; it does not change
these fields beyond the transient `cooldownPeriod`.) -/
def on429 (st : RateState) (now : Nat) : RateState :=
  adjustRateLimit
    { st with
        lastRateLimitErrorTime := now
        consecutiveRateLimitErrors := st.consecutiveRateLimitErrors + 1 }

/-- The success branch of the response interceptor: when there have been
rate-limit errors and strictly more than 60000 ms have passed since the
last one, decrement the counter and re-adjust the spacing. -/
def onSuccess (st : RateState) (now : Nat) : RateState :=
  if st.consecutiveRateLimitErrors > 0 ∧
      now - st.lastRateLimitErrorTime > 60000 then
    adjustRateLimit
      { st with consecutiveRateLimitErrors :=
          st.consecutiveRateLimitErrors - 1 }
  else st

/-- The state after `k` consecutive 429 responses (at times given by
`times`) starting from `st`. -/
def after429s (st : RateState) (times : Nat → Nat) : Nat → RateState
  | 0 => st
  | k + 1 => on429 (after429s st times k) (times k)

/-! ### SearchService (`_buildQuery`, `searchGames`) -/

/-- The request filters (query-string values, hence strings). -/
structure Filters where
  includeAllTypes : Option Bool := none
  genre : Option String := none
  publisher : Option String := none
  developer : Option String := none
  startsWith : Option String := none
  isFree : Option String := none
  discountPercentage : Option String := none
  minDiscount : Option String := none
  maxDiscount : Option String := none
  page : Option String := none
  pageSize : Option String := none
deriving DecidableEq, Repr

/-- The `type` condition `_buildQuery` always installs:
`{$exists: true, $ne: 'unknown'}`. -/
structure TypeCond where
  existsReq : Bool
  neValue : String
deriving DecidableEq, Repr

/-- The discount condition placed at `price_overview.discount_percent`
(`none` inside models a `NaN` comparison value, which matches nothing). -/
inductive DiscountCond where
  | eqC (v : Option Int)
  | gteC (v : Option Int)
  | lteC (v : Option Int)
deriving DecidableEq, Repr

/-- The MongoDB query object `_buildQuery` returns; `none` fields are
conditions the builder did not install. -/
structure MongoQuery where
  typeCond : Option TypeCond := none
  isMainType : Option Bool := none
  genres : Option String := none
  publishers : Option String := none
  developers : Option String := none
  nameStartsWithI : Option String := none
  is_free : Option Bool := none
  discount : Option DiscountCond := none
deriving DecidableEq, Repr

/-- Method `_buildQuery(filters)` (identical in all three searchService
variants).  The base query always carries the `type` condition; truthy
filters add their conditions; any truthy discount filter also forces
`is_free: false`, overwriting a previously set `is_free`. -/
def buildQuery (f : Filters) : MongoQuery :=
  let discountRequested :=
    jsTruthyStr f.discountPercentage || jsTruthyStr f.minDiscount
      || jsTruthyStr f.maxDiscount
  { typeCond := some { existsReq := true, neValue := STEAM_TYPES_UNKNOWN }
    isMainType := if f.includeAllTypes = some false then some true else none
    genres := if jsTruthyStr f.genre then f.genre else none
    publishers := if jsTruthyStr f.publisher then f.publisher else none
    developers := if jsTruthyStr f.developer then f.developer else none
    nameStartsWithI := if jsTruthyStr f.startsWith then f.startsWith else none
    is_free :=
      if discountRequested then some false
      else if f.isFree.isSome then some (f.isFree = some "true") else none
    discount :=
      if jsTruthyStr f.discountPercentage then
        some (.eqC (jsParseInt (f.discountPercentage.getD "")))
      else if jsTruthyStr f.minDiscount then
        some (.gteC (jsParseInt (f.minDiscount.getD "")))
      else if jsTruthyStr f.maxDiscount then
        some (.lteC (jsParseInt (f.maxDiscount.getD "")))
      else none }

/-- MongoDB semantics of the discount condition against a document's
`price_overview.discount_percent` path (a missing path matches no
range/equality on a number; a `NaN` query value matches nothing). -/
def matchesDiscount (c : DiscountCond) (g : GameDoc) : Bool :=
  match g.price_overview with
  | none => false
  | some po =>
    match po.discount_percent, c with
    | some d, .eqC (some v) => d = (v : ℚ)
    | some d, .gteC (some v) => d ≥ (v : ℚ)
    | some d, .lteC (some v) => d ≤ (v : ℚ)
    | _, _ => false

/-- Whether a stored document matches the built query (MongoDB
semantics: equality on an array field is membership; `$ne` also matches
documents missing the field, which is why the builder pairs it with
`$exists`; the `^prefix` case-insensitive regex is a case-insensitive
prefix test, special regex characters not modelled). -/
def matchesQuery (q : MongoQuery) (g : GameDoc) : Bool :=
  (match q.typeCond with
    | none => true
    | some tc =>
      (!tc.existsReq || g.type.isSome) && g.type ≠ some tc.neValue) &&
  (match q.isMainType with
    | none => true
    | some b => g.isMainType = some b) &&
  (match q.genres with
    | none => true
    | some v => g.genres.contains v) &&
  (match q.publishers with
    | none => true
    | some v => g.publishers.contains v) &&
  (match q.developers with
    | none => true
    | some v => g.developers.contains v) &&
  (match q.nameStartsWithI with
    | none => true
    | some p =>
      match g.name with
      | none => false
      | some n => (jsToLower p).toList.isPrefixOf (jsToLower n).toList) &&
  (match q.is_free with
    | none => true
    | some b => g.is_free = some b) &&
  (match q.discount with
    | none => true
    | some c => matchesDiscount c g)

/-- Modelled from the spec: the pagination constants of the missing
`config/constants.js` (`PAGINATION.DEFAULT_PAGE`,
`PAGINATION.DEFAULT_PAGE_SIZE`, `PAGINATION.MAX_PAGE_SIZE`, and the
older flat `DEFAULT_PAGE_SIZE`): "defaulting to fixed constants (e.g.,
page=1, pageSize=25) ... clamped to a maximum (e.g., 50)". -/
def PAGINATION_DEFAULT_PAGE : Int := 1

/-- Modelled from the spec: default page size 25 (see
`PAGINATION_DEFAULT_PAGE`). -/
def PAGINATION_DEFAULT_PAGE_SIZE : Int := 25

/-- Modelled from the spec: maximum page size 50 (see
`PAGINATION_DEFAULT_PAGE`). -/
def PAGINATION_MAX_PAGE_SIZE : Int := 50

/-- Pagination metadata of a search response. -/
structure Pagination where
  page : Int
  pageSize : Int
  total : Nat
  totalPages : Nat
deriving DecidableEq, Repr

/-- A search response. -/
structure SearchResult where
  games : List GameDoc
  pagination : Pagination
deriving DecidableEq, Repr

/-- The value `Math.ceil(total / pageSize)` for the positive page sizes the service
computes. -/
def ceilPages (total : Nat) (pageSize : Int) : Nat :=
  if pageSize ≤ 0 then 0 else (total + pageSize.toNat - 1) / pageSize.toNat

/-- Shared tail of all `searchGames` variants: run the query, `skip` and
`limit` the matches, and assemble the response (`skip`/`limit` modelled
for the non-negative values the claims exercise). -/
def runSearch (stored : List GameDoc) (q : MongoQuery) (page pageSize : Int) :
    SearchResult :=
  let found := stored.filter (matchesQuery q)
  let games := (found.drop ((page - 1) * pageSize).toNat).take pageSize.toNat
  if games.length = 0 then
    { games := []
      pagination := { page := page, pageSize := pageSize, total := 0,
                      totalPages := 0 } }
  else
    { games := games
      pagination := { page := page, pageSize := pageSize,
                      total := found.length,
                      totalPages := ceilPages found.length pageSize } }

/-- Method `searchGames(filters)` (first searchService variant): `page` and
`pageSize` come from the filters via `parseInt(x) || default`; no
maximum is applied to `pageSize`. -/
def searchGamesV1 (stored : List GameDoc) (f : Filters) : SearchResult :=
  let page := jsParseIntOr f.page 1
  let pageSize := jsParseIntOr f.pageSize PAGINATION_DEFAULT_PAGE_SIZE
  runSearch stored (buildQuery f) page pageSize

/-- The `validPage` of the third `searchGames` variant (`none` = the argument
was omitted, so the JS default parameter `PAGINATION.DEFAULT_PAGE`
applies). -/
def validPageV3 (page : Option String) : Int :=
  match page with
  | none => PAGINATION_DEFAULT_PAGE
  | some s => jsParseIntOr (some s) PAGINATION_DEFAULT_PAGE

/-- The `validPageSize` of the third `searchGames` variant:
`Math.min(parseInt(pageSize) || PAGINATION.DEFAULT_PAGE_SIZE,
PAGINATION.MAX_PAGE_SIZE)`. -/
def validPageSizeV3 (pageSize : Option String) : Int :=
  match pageSize with
  | none => min PAGINATION_DEFAULT_PAGE_SIZE PAGINATION_MAX_PAGE_SIZE
  | some s =>
    min (jsParseIntOr (some s) PAGINATION_DEFAULT_PAGE_SIZE)
      PAGINATION_MAX_PAGE_SIZE

/-- Method `searchGames(filters, page, pageSize)` (third searchService variant,
the clamped one). -/
def searchGamesV3 (stored : List GameDoc) (f : Filters)
    (page pageSize : Option String) : SearchResult :=
  runSearch stored (buildQuery f) (validPageV3 page) (validPageSizeV3 pageSize)

/-! ### Concrete instances used by scenario theorems and counterexamples -/

/-- The detail payload of the spec's price scenario: id 2,
`{name:"Real Game", type:"game", is_free:false,
price_overview:{currency:"USD", initial:1999, final:999,
discount_percent:50}}`. -/
def scenarioDetailData : RawGameData :=
  { name := some "Real Game"
    type := some "game"
    is_free := some false
    price_overview := some
      { currency := some "USD"
        initial := some 1999
        final := some 999
        discount_percent := some 50 } }

/-- A detail payload with a stable price: USD, 19.99, no discount. -/
def c1Raw : RawGameData :=
  { name := some "G", type := some "game", is_free := some false,
    price_overview := some
      { currency := some "USD", initial := some 1999, final := some 1999,
        discount_percent := some 0 } }

/-- The Game document the pipeline itself stores for `c1Raw` at time 0:
`new Game(processGameData ...)` with the `priceSchema` cast applied, so
its price carries `discount_percent = 0` and no `discountPercent`. -/
def c1Stored : GameDoc :=
  docOfDetails (processGameData 9 (some "G") c1Raw 0)

/-- A stored collection of 60 plain game records (all match the empty
filter set). -/
def c8Store : List GameDoc :=
  (List.range 60).map (fun i => { appid := i, type := some "game" })

/-- A blacklist entry for id 7 as created by a first `addToBlacklist`
call at time 5. -/
def c3Entry : BlacklistEntry :=
  { appid := 7, name := some "X", attemptCount := 1, lastAttempt := 5,
    createdAt := 5 }

/-- A three-item upstream catalog for the idempotence witness. -/
def c2Cat : List App :=
  [{ appid := 1, name := some "Alpha" }, { appid := 2, name := some "Beta" },
   { appid := 3, name := some "Gamma" }]

/-- A deterministic detail endpoint: id 1 succeeds, id 2 reports
`success:false`, everything else has no data. -/
def c2Detail : Nat → UpstreamDetail := fun n =>
  if n = 1 then .payload { name := some "Alpha", type := some "game" }
  else if n = 2 then .notSuccess
  else .missing

/-! ## Theorems -/

/-- Pointwise agreement of the plain `getGamesList` filter with the
spec's eligibility wording. -/
theorem keepV1_eq_spec (g : App) : keepV1 g = specCatalogEligible g := by
  rcases g with ⟨a, n⟩
  cases n with
  | none => rfl
  | some n =>
    by_cases hn : n = ""
    · subst hn
      simp [keepV1, specCatalogEligible, show jsTrim "" = "" from rfl]
    · simp [keepV1, specCatalogEligible, hn]

/-- Pointwise description of the cached `getGamesList` filter: the spec's
eligibility plus the extra `'demo'` exclusion. -/
theorem keepV2_eq_spec (g : App) :
    keepV2 g =
      (specCatalogEligible g && !(jsIncludes (jsToLower (g.name.getD "")) "demo")) := by
  rcases g with ⟨a, n⟩
  cases n with
  | none => rfl
  | some n =>
    by_cases hn : n = ""
    · subst hn
      simp [keepV2, specCatalogEligible, show jsTrim "" = "" from rfl]
    · simp [keepV2, specCatalogEligible, hn, Bool.and_assoc]

/-- C9 (amended): the plain `getGamesList` returns exactly the entries
whose name is present, not empty or whitespace-only, and free of the
substring `"test"` case-insensitively; the cached variant additionally
drops names containing `"demo"` case-insensitively; on the catalog
`[{appid:1,name:"Test Game"},{appid:2,name:"Real Game"}]` both variants
keep only the id-2 entry. -/
theorem getGamesList_filters_names : ∀ apps : List App,
    getGamesListV1 apps = apps.filter specCatalogEligible ∧
    getGamesListV2 apps = apps.filter (fun a =>
      specCatalogEligible a && !(jsIncludes (jsToLower (a.name.getD "")) "demo")) ∧
    getGamesListV1 [{ appid := 1, name := some "Test Game" },
                    { appid := 2, name := some "Real Game" }]
      = [{ appid := 2, name := some "Real Game" }] ∧
    getGamesListV2 [{ appid := 1, name := some "Test Game" },
                    { appid := 2, name := some "Real Game" }]
      = [{ appid := 2, name := some "Real Game" }] := by
  intro apps
  refine ⟨?_, ?_, by decide, by decide⟩
  · exact List.filter_congr (fun x _ => keepV1_eq_spec x)
  · exact List.filter_congr (fun x _ => keepV2_eq_spec x)

/-- C9 (counterexample): the cached `getGamesList` drops an entry that
the claim's filter keeps: `"Demo App"` has a present, non-whitespace name
not containing `"test"`, yet the cached variant filters it out. -/
theorem getGamesList_demo_counterexample :
    specCatalogEligible { appid := 3, name := some "Demo App" } = true ∧
    getGamesListV2 [{ appid := 3, name := some "Demo App" }] = [] := by
  decide

/-- C10: every query built by `_buildQuery` carries the unconditional
`type: {$exists: true, $ne: 'unknown'}` condition, so a document whose
`type` is absent or `'unknown'` matches no built query, whatever the
filters (including any `includeAllTypes` value). -/
theorem buildQuery_excludes_unknown (f : Filters) (g : GameDoc)
    (h : g.type = none ∨ g.type = some "unknown") :
    matchesQuery (buildQuery f) g = false := by
  rcases h with h | h <;>
    simp [matchesQuery, buildQuery, h, STEAM_TYPES_UNKNOWN]

/-- C10 witness: a concrete `'unknown'`-typed document is rejected by the
query built from empty filters. -/
theorem buildQuery_excludes_unknown_witness :
    matchesQuery (buildQuery {}) { appid := 1, type := some "unknown" } = false :=
  buildQuery_excludes_unknown {} { appid := 1, type := some "unknown" }
    (Or.inr rfl)

/-- C7: the bounded-concurrency batch helper returns one cell per input
item; the cell at index `i` is `null` exactly when that item's operation
rejected and otherwise holds that operation's resolved value, so no
item's failure perturbs any other index (and the helper itself resolves —
it is a total function). -/
theorem processBatchWithConcurrency_cells {α β ε : Type}
    (items : List α) (asyncFn : α → Except ε β) :
    (processBatchWithConcurrency items asyncFn).length = items.length ∧
    ∀ i : Nat, (processBatchWithConcurrency items asyncFn)[i]? =
      items[i]?.map (fun a =>
        match asyncFn a with
        | .ok r => some r
        | .error _ => none) := by
  refine ⟨List.length_map _ _, fun i => ?_⟩
  simp [processBatchWithConcurrency, List.getElem?_map]

/-- C6 (amended): for a non-free payload with a price block, the
normalizer divides a non-zero `initial`/`final` by 100 and copies
`discount_percent` into `discountPercent` (0 when absent); a zero or
absent `initial`/`final` is stored as `null` (JS truthiness of
`x ? x / 100 : null`); the stored price is `null` when the item is free
or no price block is present; the spec's scenario yields
`final = 9.99` and `discountPercent = 50`. -/
theorem processPriceData_normalization :
    (∀ (po : PriceOverview) (now : Nat) (i : Int), po.initial = some i →
      i ≠ 0 → (processPriceData (some po) now).map (·.initial)
        = some (some ((i : ℚ) / 100))) ∧
    (∀ (po : PriceOverview) (now : Nat) (i : Int), po.final = some i →
      i ≠ 0 → (processPriceData (some po) now).map (·.final)
        = some (some ((i : ℚ) / 100))) ∧
    (∀ (po : PriceOverview) (now : Nat),
      po.final = some 0 ∨ po.final = none →
      (processPriceData (some po) now).map (·.final) = some none) ∧
    (∀ (po : PriceOverview) (now : Nat) (d : Int),
      po.discount_percent = some d →
      (processPriceData (some po) now).map (·.discountPercent)
        = some (some (d : ℚ))) ∧
    (∀ (appid : Nat) (name : Option String) (data : RawGameData) (now : Nat),
      data.is_free = some true →
      (processGameData appid name data now).price = none) ∧
    (∀ (appid : Nat) (name : Option String) (data : RawGameData) (now : Nat),
      data.price_overview = none →
      (processGameData appid name data now).price = none) ∧
    ((processGameData 2 (some "Real Game") scenarioDetailData 0).price.map
        (·.final) = some (some (9.99 : ℚ)) ∧
      (processGameData 2 (some "Real Game") scenarioDetailData 0).price.map
        (·.initial) = some (some (19.99 : ℚ)) ∧
      (processGameData 2 (some "Real Game") scenarioDetailData 0).price.map
        (·.discountPercent) = some (some (50 : ℚ))) := by
  refine ⟨?_, ?_, ?_, ?_, ?_, ?_, ?_, ?_, ?_⟩
  · intro po now i h hi; simp [processPriceData, jsDiv100, h, hi]
  · intro po now i h hi; simp [processPriceData, jsDiv100, h, hi]
  · intro po now h
    rcases h with h | h <;> simp [processPriceData, jsDiv100, h]
  · intro po now d h; simp [processPriceData, h]
  · intro appid name data now h; simp [processGameData, h]
  · intro appid name data now h
    simp [processGameData, h, processPriceData]
  · norm_num [processGameData, scenarioDetailData, processPriceData, jsDiv100]
  · norm_num [processGameData, scenarioDetailData, processPriceData, jsDiv100]
  · decide

/-- C6 witness: the first clause applied at the scenario's price block. -/
theorem processPriceData_normalization_witness :
    (processPriceData (some
      { currency := some "USD", initial := some 1999, final := some 999,
        discount_percent := some 50 }) 0).map (·.initial)
      = some (some ((1999 : ℚ) / 100)) :=
  processPriceData_normalization.1
    { currency := some "USD", initial := some 1999, final := some 999,
      discount_percent := some 50 } 0 1999 rfl (by decide)

/-- C6 (counterexample): a non-free payload whose price block carries
`final: 0` is *not* divided by 100 — the normalizer stores `null` for
`final`, not `0`, because `0` is falsy in `x ? x / 100 : null`. -/
theorem processPriceData_zero_counterexample :
    (processGameData 5 (some "Zero Game")
        { name := some "Zero Game", type := some "game",
          is_free := some false,
          price_overview := some
            { currency := some "USD", initial := some 1999, final := some 0,
              discount_percent := some 100 } } 0).price.map (·.final)
      = some none ∧
    (some none : Option (Option ℚ)) ≠ some (some ((0 : ℚ) / 100)) := by
  decide

/-- Unfolding of `updateGameDetails` on a successful detail fetch. -/
theorem updateGameDetails_payload (g : GameDoc) (d : RawGameData)
    (bl : List BlacklistEntry) (now : Nat) :
    updateGameDetails g (.payload d) bl now =
      ({ applyDetails g (processGameData g.appid g.name d now) now with
          priceHistory :=
            if hasPriceChanged g (processGameData g.appid g.name d now) then
              g.priceHistory ++ [g.price.map (fun p => castPrice p now)]
            else g.priceHistory },
       bl, some g) := rfl

/-- C1 (code bug): storing a payload and refreshing with the *same*
payload appends a snapshot.  `new Game(...)` and the `$set` cast the
price through `priceSchema`, which strips the normalizer's
`discountPercent` key and defaults the declared `discount_percent` path
to 0, while fresh normalized data carries the discount only under
`discountPercent`; `hasPriceChanged` reads `price.discount_percent` on
both sides, compares `0 !== undefined`, and reports a change on every
refresh in which both prices are present — so `priceHistory` grows
although currency, initial, final and the discount value (0) are all
unchanged, contradicting the spec's price-history-on-change-only rule. -/
theorem updateGameDetails_identical_price_appends :
    (c1Stored.price.map (fun p => (p.currency, p.initial, p.final))
      = (processGameData 9 (some "G") c1Raw 1).price.map
        (fun p => (p.currency, p.initial, p.final))) ∧
    c1Stored.price.map (·.discount_percent) = some (some 0) ∧
    (processGameData 9 (some "G") c1Raw 1).price.map (·.discountPercent)
      = some (some 0) ∧
    (updateGameDetails c1Stored (.payload c1Raw) [] 1).1.priceHistory.length
      = c1Stored.priceHistory.length + 1 := by
  refine ⟨rfl, rfl, ?_, ?_⟩
  · norm_num [processGameData, c1Raw, processPriceData]
  · rw [updateGameDetails_payload]
    have happid : c1Stored.appid = 9 := rfl
    have hname : c1Stored.name = some "G" := rfl
    rw [happid, hname]
    have hpc : hasPriceChanged c1Stored (processGameData 9 (some "G") c1Raw 1)
        = true := by
      simp [hasPriceChanged, c1Stored, docOfDetails, castPrice,
        processGameData, processPriceData, c1Raw, jsDiv100]
    rw [hpc]
    simp

/-- C4 (amended): for a retryable config with `k` prior attempts,
`k < maxRetries`: a 429 is re-issued after `retryDelay * 8 ^ k`, while a
network error or any other non-404/403 status is re-issued after
`retryDelay * 2 ^ k`; once `k ≥ maxRetries` a fresh `Error` is surfaced;
404 and 403 responses are never retried, whatever the config. -/
theorem responseErrorInterceptor_retry_policy :
    (∀ m b k : Nat, k < m →
      responseErrorInterceptor m b { retry := true, retryCount := k }
          (.httpStatus 429)
        = .retryAfter (b * 8 ^ k) { retry := true, retryCount := k + 1 }) ∧
    (∀ m b k : Nat, k < m →
      responseErrorInterceptor m b { retry := true, retryCount := k }
          .networkError
        = .retryAfter (b * 2 ^ k) { retry := true, retryCount := k + 1 }) ∧
    (∀ m b k c : Nat, k < m → c ≠ 429 → c ≠ 404 → c ≠ 403 →
      responseErrorInterceptor m b { retry := true, retryCount := k }
          (.httpStatus c)
        = .retryAfter (b * 2 ^ k) { retry := true, retryCount := k + 1 }) ∧
    (∀ (m b k : Nat) (e : UpstreamFailure), m ≤ k →
      e ≠ .httpStatus 404 → e ≠ .httpStatus 403 →
      responseErrorInterceptor m b { retry := true, retryCount := k } e
        = .rejectMaxRetries) ∧
    (∀ (m b : Nat) (cfg : RetryConfig),
      responseErrorInterceptor m b cfg (.httpStatus 404) = .rejectOriginal ∧
      responseErrorInterceptor m b cfg (.httpStatus 403) = .rejectOriginal) := by
  refine ⟨?_, ?_, ?_, ?_, ?_⟩
  · intro m b k h
    simp [responseErrorInterceptor, Nat.not_le.mpr h]
  · intro m b k h
    simp [responseErrorInterceptor, Nat.not_le.mpr h]
  · intro m b k c h h429 h404 h403
    simp [responseErrorInterceptor, Nat.not_le.mpr h, h429, h404, h403]
  · intro m b k e h h404 h403
    by_cases h429 : e = .httpStatus 429
    · simp [responseErrorInterceptor, h429, h]
    · simp [responseErrorInterceptor, h429, h404, h403, h]
  · intro m b cfg
    constructor <;> simp [responseErrorInterceptor]

/-- C4 witness: the second retry (k = 1) of a network error with the
default settings (`maxRetries = 3`, `retryDelay = 2000`) is re-issued
after `2000 * 2 ^ 1 = 4000` ms. -/
theorem responseErrorInterceptor_retry_policy_witness :
    responseErrorInterceptor 3 2000 { retry := true, retryCount := 1 }
        .networkError
      = .retryAfter 4000 { retry := true, retryCount := 2 } :=
  responseErrorInterceptor_retry_policy.2.1 3 2000 1 (by decide)

/-- C4 (counterexample): the second retry of a rate-limited (429) request
with the default settings is delayed `2000 * 8 ^ 1 = 16000` ms, not the
claimed `2000 * 2 ^ 1 = 4000` ms — the 429 branch uses
`this.retryDelay * (8 ** (config.retryCount - 1))`. -/
theorem responseErrorInterceptor_429_backoff_counterexample :
    responseErrorInterceptor 3 2000 { retry := true, retryCount := 1 }
        (.httpStatus 429)
      = .retryAfter 16000 { retry := true, retryCount := 2 } ∧
    (16000 : Nat) ≠ 2000 * 2 ^ 1 := by
  decide

/-- At the default base spacing of 1500 ms, the multiplier cap of 20 in
`adjustRateLimit` coincides with the 30000 ms cap, so the computed
spacing is `min (1500 * 2 ^ c) 30000`. -/
theorem adjust_base1500 (c : Nat) :
    (if 1500 * min 20 (2 ^ c) > 30000 then 30000 else 1500 * min 20 (2 ^ c))
      = min (1500 * 2 ^ c) 30000 := by
  rcases le_or_lt (2 ^ c) 20 with h | h
  · rw [min_eq_right h]
    have hv : 1500 * 2 ^ c ≤ 30000 := by
      calc 1500 * 2 ^ c ≤ 1500 * 20 := by
            exact Nat.mul_le_mul_left 1500 h
        _ = 30000 := by norm_num
    rw [if_neg (by omega), min_eq_left hv]
  · rw [min_eq_left (by omega)]
    have hv : 30000 ≤ 1500 * 2 ^ c := by
      calc (30000 : Nat) = 1500 * 20 := by norm_num
        _ ≤ 1500 * 2 ^ c := Nat.mul_le_mul_left 1500 (le_of_lt h)
    rw [if_neg (by omega), min_eq_right hv]

/-- Helper: `after429s` bumps the consecutive-error counter once per 429 and never
touches the base. -/
theorem after429s_consec (st : RateState) (times : Nat → Nat) (k : Nat) :
    (after429s st times k).consecutiveRateLimitErrors
        = st.consecutiveRateLimitErrors + k ∧
    (after429s st times k).baseRateLimit = st.baseRateLimit := by
  induction k with
  | zero => exact ⟨rfl, rfl⟩
  | succ k ih =>
    simp only [after429s, on429, adjustRateLimit]
    omega

/-- C5 (amended): with the default base spacing of 1500 ms, the enforced
spacing after the k-th consecutive 429 is `min (1500 * 2^k) 30000` — the
base times `2^k`, capped at 30 s; a successful request *strictly more*
than 60 s after the last 429 decays the spacing by one step (counter back
to `k`, spacing back to `min (1500 * 2^k) 30000`). -/
theorem rateLimit_spacing_and_decay :
    (∀ (times : Nat → Nat) (k : Nat),
      (after429s (initRateState 1500) times k).storeApiRateLimit
        = min (1500 * 2 ^ k) 30000) ∧
    (∀ (times : Nat → Nat) (k now : Nat),
      now - (after429s (initRateState 1500) times
          (k + 1)).lastRateLimitErrorTime > 60000 →
      (onSuccess (after429s (initRateState 1500) times (k + 1))
            now).consecutiveRateLimitErrors = k ∧
      (onSuccess (after429s (initRateState 1500) times (k + 1))
            now).storeApiRateLimit = min (1500 * 2 ^ k) 30000) := by
  constructor
  · intro times k
    cases k with
    | zero => simp [after429s, initRateState]
    | succ k =>
      have hc := after429s_consec (initRateState 1500) times k
      simp only [after429s, on429, adjustRateLimit]
      rw [hc.1, hc.2]
      simpa [initRateState] using adjust_base1500 (k + 1)
  · intro times k now h
    have hc := after429s_consec (initRateState 1500) times (k + 1)
    have hpos : 0 < (after429s (initRateState 1500) times
        (k + 1)).consecutiveRateLimitErrors := by
      rw [hc.1]; simp [initRateState]
    rw [onSuccess, if_pos ⟨hpos, h⟩]
    simp only [adjustRateLimit]
    rw [hc.1, hc.2]
    simp only [initRateState]
    refine ⟨by omega, ?_⟩
    simpa using adjust_base1500 k

/-- C5 witness: after five consecutive 429s the spacing is pinned at the
30000 ms cap (`1500 * 2^5 = 48000` is capped), and a success 60001 ms
later decays it to `1500 * 2^4 = 24000`. -/
theorem rateLimit_spacing_and_decay_witness :
    (after429s (initRateState 1500) (fun _ => 0) 5).storeApiRateLimit
        = 30000 ∧
    (onSuccess (after429s (initRateState 1500) (fun _ => 0) 5)
        60001).storeApiRateLimit = 24000 := by
  constructor
  · have h := rateLimit_spacing_and_decay.1 (fun _ => 0) 5
    simpa using h
  · have h := (rateLimit_spacing_and_decay.2 (fun _ => 0) 4 60001
      (by decide)).2
    simpa using h

/-- C5 (counterexample): the claim allows the decay "at least 60 seconds"
after the last 429, but the code requires *strictly more* than 60000 ms
(`Date.now() - this.lastRateLimitErrorTime > 60000`): a success exactly
60000 ms after the last 429 leaves the counter and the spacing unchanged. -/
theorem onSuccess_boundary_counterexample :
    onSuccess { consecutiveRateLimitErrors := 1, storeApiRateLimit := 3000,
                lastRateLimitErrorTime := 0, baseRateLimit := 1500 } 60000
      = { consecutiveRateLimitErrors := 1, storeApiRateLimit := 3000,
          lastRateLimitErrorTime := 0, baseRateLimit := 1500 } ∧
    (60000 : Nat) - 0 = 60000 := by
  decide

/-- C8 (amended): in the clamped (third) `searchGames` variant, `page`
and `pageSize` are parsed as integers and fall back to the defaults
(1 and 25) when absent or non-numeric, `pageSize` never exceeds the
maximum of 50 whatever the request, and a request with `pageSize=10000`
returns at most 50 items; the first (unclamped) variant parses the same
way but applies no maximum. -/
theorem searchGames_pagination_clamp :
    (∀ ps : Option String, validPageSizeV3 ps ≤ PAGINATION_MAX_PAGE_SIZE) ∧
    (validPageV3 none = 1) ∧
    (∀ s : String, jsParseInt s = none → validPageV3 (some s) = 1) ∧
    (validPageSizeV3 none = 25) ∧
    (∀ s : String, jsParseInt s = none → validPageSizeV3 (some s) = 25) ∧
    (validPageSizeV3 (some "10000") = 50) ∧
    (∀ (stored : List GameDoc) (f : Filters) (pg : Option String),
      (searchGamesV3 stored f pg (some "10000")).games.length ≤ 50) ∧
    (∀ stored : List GameDoc,
      (searchGamesV1 stored {}).pagination.page = 1 ∧
      (searchGamesV1 stored {}).pagination.pageSize = 25) := by
  refine ⟨?_, rfl, ?_, by decide, ?_, by decide, ?_, ?_⟩
  · intro ps
    cases ps with
    | none => decide
    | some s => exact min_le_right _ _
  · intro s h
    simp [validPageV3, jsParseIntOr, h, PAGINATION_DEFAULT_PAGE]
  · intro s h
    simp [validPageSizeV3, jsParseIntOr, h, PAGINATION_DEFAULT_PAGE_SIZE,
      PAGINATION_MAX_PAGE_SIZE]
  · intro stored f pg
    have h50 : validPageSizeV3 (some "10000") = 50 := by decide
    simp only [searchGamesV3, runSearch, h50]
    split
    · simp
    · simp [List.length_take_le]
  · intro stored
    constructor <;>
      · simp only [searchGamesV1, runSearch, jsParseIntOr]
        split <;> rfl

/-- C8 witness: the pageSize-clamp clause applied to a non-numeric
request, and the at-most-50 clause applied to the 60-record store. -/
theorem searchGames_pagination_clamp_witness :
    validPageSizeV3 (some "abc") = 25 ∧
    (searchGamesV3 c8Store {} none (some "10000")).games.length ≤ 50 :=
  ⟨searchGames_pagination_clamp.2.2.2.2.1 "abc" (by decide),
   searchGames_pagination_clamp.2.2.2.2.2.2.1 c8Store {} none⟩

/-- C8 (counterexample): the first `searchGames` variant applies no
maximum: a request with `pageSize=10000` against 60 stored records
returns all 60 items, exceeding the configured maximum of 50. -/
theorem searchGamesV1_no_clamp_counterexample :
    (searchGamesV1 c8Store { pageSize := some "10000" }).games.length = 60 ∧
    ¬((60 : Int) ≤ PAGINATION_MAX_PAGE_SIZE) := by
  constructor
  · decide
  · decide

/-- The `$inc`/`$set` update of `addToBlacklist` touches only the entries
whose `appid` matches, so `find?` on the updated list finds the bumped
entry. -/
theorem find?_addToBlacklist_update (bl : List BlacklistEntry)
    (id now : Nat) :
    (bl.map (fun e =>
        if e.appid = id then
          { e with attemptCount := e.attemptCount + 1, lastAttempt := now }
        else e)).find? (fun x => x.appid = id)
      = (bl.find? (fun x => x.appid = id)).map (fun e =>
          { e with attemptCount := e.attemptCount + 1, lastAttempt := now }) := by
  induction bl with
  | nil => rfl
  | cons a l ih =>
    by_cases ha : a.appid = id
    · rw [List.map_cons, if_pos ha]
      rw [List.find?_cons_of_pos _ (by simp [ha]),
        List.find?_cons_of_pos _ (by simp [ha])]
      simp
    · rw [List.map_cons, if_neg ha]
      rw [List.find?_cons_of_neg _ (by simp [ha]),
        List.find?_cons_of_neg _ (by simp [ha])]
      exact ih

/-- C3 (first two clauses of the claim): a first `addToBlacklist` call
for an id appends exactly one entry with `attemptCount = 1` (and that id
then has exactly one entry); a later call for the same id increments that
entry's `attemptCount` by exactly 1 and refreshes `lastAttempt`, without
changing the collection's length or the number of entries for the id.
Third clause: an id with a blacklist entry is never among the items
`syncNewGames` issues detail fetches for. -/
theorem addToBlacklist_spec :
    (∀ (bl : List BlacklistEntry) (id : Nat) (nm : Option String)
        (now : Nat),
      bl.find? (fun x => x.appid = id) = none →
      addToBlacklist bl id nm now
          = bl ++ [{ appid := id, name := nm, attemptCount := 1,
                     lastAttempt := now, createdAt := now }] ∧
      (addToBlacklist bl id nm now).countP (fun x => x.appid = id) = 1) ∧
    (∀ (bl : List BlacklistEntry) (id : Nat) (nm : Option String)
        (now : Nat) (e : BlacklistEntry),
      bl.find? (fun x => x.appid = id) = some e →
      (addToBlacklist bl id nm now).length = bl.length ∧
      (addToBlacklist bl id nm now).countP (fun x => x.appid = id)
          = bl.countP (fun x => x.appid = id) ∧
      (addToBlacklist bl id nm now).find? (fun x => x.appid = id)
          = some { e with attemptCount := e.attemptCount + 1,
                          lastAttempt := now }) ∧
    (∀ (cat : List App) (st : Store) (b : BlacklistEntry),
      b ∈ st.blacklist → ∀ a ∈ newItemsOf cat st, a.appid ≠ b.appid) := by
  refine ⟨?_, ?_, ?_⟩
  · intro bl id nm now h
    have habs : ∀ x ∈ bl, ¬(x.appid = id) := by
      intro x hx
      have := List.find?_eq_none.mp h x hx
      simpa using this
    refine ⟨by simp [addToBlacklist, h], ?_⟩
    rw [addToBlacklist, h, List.countP_append]
    have h0 : bl.countP (fun x => decide (x.appid = id)) = 0 :=
      List.countP_eq_zero.mpr (by
        intro x hx
        simpa using habs x hx)
    simp [h0]
  · intro bl id nm now e h
    refine ⟨?_, ?_, ?_⟩
    · simp [addToBlacklist, h]
    · rw [addToBlacklist, h, List.countP_map]
      refine List.countP_congr ?_
      intro x hx
      by_cases hxa : x.appid = id <;> simp [hxa]
    · rw [addToBlacklist, h, find?_addToBlacklist_update, h]
      rfl
  · intro cat st b hb a ha hEq
    have hmem : b.appid ∈ existingIds st :=
      List.mem_append_right _ (List.mem_map_of_mem (·.appid) hb)
    rw [← hEq] at hmem
    simp only [newItemsOf, List.mem_filter] at ha
    simp [hmem] at ha

/-- C3 witness: a fresh id 7 gets exactly one entry with
`attemptCount = 1`; a second encounter bumps it to 2 and refreshes
`lastAttempt` to 9 without duplicating the entry. -/
theorem addToBlacklist_spec_witness :
    addToBlacklist [] 7 (some "X") 5 = [c3Entry] ∧
    (addToBlacklist [c3Entry] 7 (some "X") 9).find? (fun x => x.appid = 7)
      = some { c3Entry with attemptCount := 2, lastAttempt := 9 } := by
  refine ⟨?_, ?_⟩
  · simpa [c3Entry] using (addToBlacklist_spec.1 [] 7 (some "X") 5 rfl).1
  · exact (addToBlacklist_spec.2.1 [c3Entry] 7 (some "X") 9 c3Entry
      (by decide)).2.2

/-- Helper: `addToBlacklist` keeps every existing id (the `$inc` update preserves
`appid`; the insert branch only appends). -/
theorem addToBlacklist_ids_mem (bl : List BlacklistEntry) (id : Nat)
    (nm : Option String) (now : Nat) (x : Nat)
    (hx : x ∈ bl.map (·.appid)) :
    x ∈ (addToBlacklist bl id nm now).map (·.appid) := by
  unfold addToBlacklist
  cases hf : bl.find? (fun e => e.appid = id) with
  | none =>
    rw [List.map_append]
    exact List.mem_append_left _ hx
  | some e =>
    have hcomp : ((fun e : BlacklistEntry => e.appid) ∘ (fun e =>
        if e.appid = id then
          { e with attemptCount := e.attemptCount + 1, lastAttempt := now }
        else e)) = fun e : BlacklistEntry => e.appid := by
      funext e
      by_cases h : e.appid = id <;> simp [h]
    rw [List.map_map, hcomp]
    exact hx

/-- After `addToBlacklist bl id`, the id `id` has an entry. -/
theorem addToBlacklist_own_id (bl : List BlacklistEntry) (id : Nat)
    (nm : Option String) (now : Nat) :
    id ∈ (addToBlacklist bl id nm now).map (·.appid) := by
  unfold addToBlacklist
  cases hf : bl.find? (fun e => e.appid = id) with
  | none => simp
  | some e =>
    have he : e ∈ bl := List.mem_of_find?_eq_some hf
    have heid : e.appid = id := by
      have := List.find?_some hf
      simpa using this
    refine List.mem_map.mpr
      ⟨{ e with attemptCount := e.attemptCount + 1, lastAttempt := now },
       ?_, heid⟩
    refine List.mem_map.mpr ⟨e, he, ?_⟩
    rw [if_pos heid]

/-- One sync step never removes an id from `existingIds`. -/
theorem syncStep_ids_mono (detail : Nat → UpstreamDetail) (now : Nat)
    (st : Store) (g : App) (x : Nat) (hx : x ∈ existingIds st) :
    x ∈ existingIds (syncStep detail now st g).1 := by
  unfold syncStep
  cases h : getGameDetailsResult (detail g.appid) g.appid g.name now with
  | fail => exact hx
  | blacklistSig =>
    rcases List.mem_append.mp hx with h1 | h1
    · exact List.mem_append_left _ h1
    · exact List.mem_append_right _
        (addToBlacklist_ids_mem st.blacklist g.appid g.name now x h1)
  | ok d =>
    rcases List.mem_append.mp hx with h1 | h1
    · apply List.mem_append_left
      rw [List.map_append]
      exact List.mem_append_left _ h1
    · exact List.mem_append_right _ h1

/-- The sync batch never removes an id from `existingIds`. -/
theorem syncFold_ids_mono (detail : Nat → UpstreamDetail) (now : Nat)
    (gs : List App) : ∀ (st : Store) (x : Nat), x ∈ existingIds st →
    x ∈ existingIds (syncFold detail now st gs).1 := by
  induction gs with
  | nil => intro st x hx; exact hx
  | cons a l ih =>
    intro st x hx
    exact ih (syncStep detail now st a).1 x
      (syncStep_ids_mono detail now st a x hx)

/-- An item of the batch whose detail fetch yields data or the
`success:false` sentinel ends up in `existingIds` (stored or
blacklisted). -/
theorem syncFold_mem_ids (detail : Nat → UpstreamDetail) (now : Nat)
    (gs : List App) : ∀ (st : Store) (g : App), g ∈ gs →
    ((∃ d, detail g.appid = .payload d) ∨ detail g.appid = .notSuccess) →
    g.appid ∈ existingIds (syncFold detail now st gs).1 := by
  induction gs with
  | nil => intro st g hg _; cases hg
  | cons a l ih =>
    intro st g hg hres
    rcases List.mem_cons.mp hg with rfl | hgl
    · apply syncFold_ids_mono detail now l
      rcases hres with ⟨d, hd⟩ | hd
      · simp only [syncStep, hd, getGameDetailsResult]
        apply List.mem_append_left
        rw [List.map_append]
        apply List.mem_append_right
        simp [docOfDetails, processGameData]
      · simp only [syncStep, hd, getGameDetailsResult]
        exact List.mem_append_right _
          (addToBlacklist_own_id st.blacklist g.appid g.name now)
    · exact ih (syncStep detail now st a).1 g hgl hres

/-- A batch all of whose detail fetches fail leaves the store untouched
and produces only `null` results. -/
theorem syncFold_noop (detail : Nat → UpstreamDetail) (now : Nat)
    (gs : List App) : ∀ st : Store,
    (∀ g ∈ gs,
      getGameDetailsResult (detail g.appid) g.appid g.name now = .fail) →
    syncFold detail now st gs = (st, gs.map fun _ => none) := by
  induction gs with
  | nil => intro st _; rfl
  | cons a l ih =>
    intro st h
    have hstep : syncStep detail now st a = (st, none) := by
      unfold syncStep
      rw [h a (List.mem_cons_self a l)]
    show ((syncFold detail now (syncStep detail now st a).1 l).1,
      (syncStep detail now st a).2
        :: (syncFold detail now (syncStep detail now st a).1 l).2)
      = (st, (a :: l).map fun _ => none)
    rw [hstep]
    rw [ih st (fun g hg => h g (List.mem_cons_of_mem _ hg))]
    rfl

/-- Collapsing an all-`null` result list. -/
theorem filterMap_id_none {α β : Type} (l : List α) :
    (l.map fun _ => (none : Option β)).filterMap id = [] := by
  induction l with
  | nil => rfl
  | cons a l ih => simp [ih]

/-- C2: with the upstream catalog and detail endpoint unchanged and no
other writers, a second `syncNewGames` run immediately after a completed
first run saves nothing and leaves the store exactly as the first run
left it: every id the first run stored or blacklisted is in
`existingIds` and so is filtered out of the second run's `newGames`, and
the remaining items (failed fetches) fail again and are skipped again. -/
theorem syncNewGames_idempotent (cat : List App)
    (detail : Nat → UpstreamDetail) (now now' : Nat) (st0 : Store) :
    syncNewGames cat detail now' (syncNewGames cat detail now st0).1
        = ((syncNewGames cat detail now st0).1, []) ∧
    ∀ id ∈ existingIds (syncNewGames cat detail now st0).1,
      id ∉ (newItemsOf cat (syncNewGames cat detail now st0).1).map
        (·.appid) := by
  constructor
  · have hfail : ∀ g ∈ newItemsOf cat (syncNewGames cat detail now st0).1,
        getGameDetailsResult (detail g.appid) g.appid g.name now'
          = .fail := by
      intro g hg
      have hgsplit := List.mem_filter.mp hg
      have hgcat : g ∈ getGamesListV2 cat := hgsplit.1
      have hnotmem : g.appid ∉
          existingIds (syncNewGames cat detail now st0).1 := by
        intro hm
        have := hgsplit.2
        simp [hm] at this
      have hst0 : g.appid ∉ existingIds st0 := fun hm =>
        hnotmem (syncFold_ids_mono detail now (newItemsOf cat st0) st0
          g.appid hm)
      have hg1 : g ∈ newItemsOf cat st0 := by
        refine List.mem_filter.mpr ⟨hgcat, ?_⟩
        simp [hst0]
      cases hdet : detail g.appid with
      | payload d =>
        exact absurd (syncFold_mem_ids detail now (newItemsOf cat st0) st0
          g hg1 (Or.inl ⟨d, hdet⟩)) hnotmem
      | notSuccess =>
        exact absurd (syncFold_mem_ids detail now (newItemsOf cat st0) st0
          g hg1 (Or.inr hdet)) hnotmem
      | transportError => simp [getGameDetailsResult, hdet]
      | missing => simp [getGameDetailsResult, hdet]
      | invalidData => simp [getGameDetailsResult, hdet]
    have hnoop := syncFold_noop detail now'
      (newItemsOf cat (syncNewGames cat detail now st0).1)
      (syncNewGames cat detail now st0).1 hfail
    show ((syncFold detail now' (syncNewGames cat detail now st0).1
        (newItemsOf cat (syncNewGames cat detail now st0).1)).1,
      (syncFold detail now' (syncNewGames cat detail now st0).1
        (newItemsOf cat (syncNewGames cat detail now st0).1)).2.filterMap
        id) = _
    rw [hnoop]
    rw [filterMap_id_none]
  · intro id hid hmem
    rcases List.mem_map.mp hmem with ⟨a, ha, rfl⟩
    have := (List.mem_filter.mp ha).2
    simp [hid] at this

/-- C2 witness: on the concrete catalog (id 1 stored, id 2 blacklisted,
id 3 failing) the second run returns the first run's store with nothing
added, and the blacklisted id 2 is filtered out of its `newGames`. -/
theorem syncNewGames_idempotent_witness :
    syncNewGames c2Cat c2Detail 1 (syncNewGames c2Cat c2Detail 0 {}).1
        = ((syncNewGames c2Cat c2Detail 0 {}).1, []) ∧
    2 ∉ (newItemsOf c2Cat (syncNewGames c2Cat c2Detail 0 {}).1).map
      (·.appid) :=
  ⟨(syncNewGames_idempotent c2Cat c2Detail 0 1 {}).1,
   (syncNewGames_idempotent c2Cat c2Detail 0 1 {}).2 2 (by decide)⟩

end SalesAllSales
